import Mathlib

/-!
# SmartCommerce — verification of the fraud-detection and price-optimization services

Shallow embedding, in Lean 4, of the decision logic of
`services/python-services/fraud-detection/app/services/fraud_detector.py` and
`services/python-services/price-optimization/app/services/price_optimizer.py`
(with the pricing defaults of
`services/python-services/price-optimization/app/core/config.py`).

Modeling conventions:
* Python floats / `Decimal`s are modeled as `ℚ` (exact arithmetic; NaN/Inf, which can
  only arise from float edge cases, are outside the embedding).
* Python `None`-able fields are `Option _`; Python truthiness of numbers/strings/dicts
  (`0`, `""`, `{}` and `None` are falsy) is modeled explicitly where the source relies
  on it.
* Code that raises is modeled with `Option`/`Except` (`none`/`.error` = the call raises).
* Runtime functions of the Python/NumPy environment that have no exact rational
  counterpart (`hash`, `md5`, `np.log1p`, the square root inside `np.std`) and the
  mock random draws `np.random.beta(2, 8)` are abstract parameters (`PyEnv`, `rng`);
  every theorem quantifies over them.
-/

namespace SmartCommerce

/-! ## Fraud-detection service: schemas (app/models/schemas.py) -/

/-- The `FraudDecision` enum. -/
inductive FraudDecision where
  | approve
  | decline
  | review
  | challenge
deriving DecidableEq, Repr

/-- The `RiskLevel` enum. -/
inductive RiskLevel where
  | low
  | medium
  | high
  | critical
deriving DecidableEq, Repr

/-- The `PaymentMethod` (fields read by the service). -/
structure PaymentMethod where
  payment_type : String
  is_tokenized : Bool
  token_confidence : Option ℚ
deriving DecidableEq, Repr

/-- The `TransactionData` (fields read by the service).  `transaction_time` is carried as
its epoch seconds together with the derived `hour` and `weekday` used by the code;
billing/shipping addresses are the string-keyed dictionaries of the schema. -/
structure TransactionData where
  transaction_id : String
  amount : ℚ
  hour : ℕ
  weekday : ℕ
  epoch_seconds : ℚ
  is_recurring : Bool
  is_international : Bool
  hourly_transaction_count : Option ℤ
  daily_transaction_count : Option ℤ
  daily_amount_total : Option ℚ
  billing_address : Option (List (String × String))
  shipping_address : Option (List (String × String))
  payment_method : PaymentMethod
deriving DecidableEq, Repr

/-- The `UserData` (fields read by the service).  `last_login_time` is its epoch seconds. -/
structure UserData where
  user_id : String
  account_age_days : ℤ
  email_verified : Bool
  phone_verified : Bool
  transaction_frequency : Option ℚ
  average_transaction_amount : Option ℚ
  previous_fraud_reports : ℤ
  chargebacks_count : ℤ
  failed_login_attempts : ℤ
  last_login_epoch : Option ℚ
  profile_completeness : Option ℚ
deriving DecidableEq, Repr

/-- The `DeviceInfo` (fields read by the service). -/
structure DeviceInfo where
  device_type : String
  is_mobile : Bool
  is_proxy : Option Bool
  device_fingerprint : Option String
deriving DecidableEq, Repr

/-- The `ContextData` (fields read by the service). -/
structure ContextData where
  session_id : String
  session_duration : Option ℤ
  pages_visited : Option ℤ
  time_to_transaction : Option ℤ
  holiday_indicator : Bool
  promotional_period : Bool
deriving DecidableEq, Repr

/-- The `FraudIndicator` schema. -/
structure FraudIndicator where
  indicator_type : String
  description : String
  severity : ℚ
  confidence : ℚ
  contributing_factors : List String
deriving DecidableEq, Repr

/-- Rule indicator dictionaries produced by `_apply_fraud_rules`
(`{'type': ..., 'severity': ..., 'description': ...}`). -/
structure RuleIndicator where
  type : String
  severity : ℚ
  description : String
deriving DecidableEq, Repr

/-! ## Python / NumPy helpers -/

/-- Python truthiness of an optional number (`None` and `0` are falsy). -/
def qTruthy (o : Option ℚ) : Bool :=
  match o with
  | none => false
  | some q => q != 0

/-- Python truthiness of an optional integer. -/
def zTruthy (o : Option ℤ) : Bool :=
  match o with
  | none => false
  | some n => n != 0

/-- Python truthiness of an optional string (`None` and `""` are falsy). -/
def sTruthy (o : Option String) : Bool :=
  match o with
  | none => false
  | some s => s != ""

/-- Python truthiness of an optional dict (`None` and `{}` are falsy). -/
def dTruthy (o : Option (List (String × String))) : Bool :=
  match o with
  | none => false
  | some d => !d.isEmpty

/-- Python `dict.get(key)` (first binding wins, as in a dict with unique keys). -/
def dictGet (d : List (String × String)) (k : String) : Option String :=
  (d.find? (fun p => p.1 == k)).map (·.2)

/-- Python `dict.get(key, default)`. -/
def dictGetD (d : List (String × String)) (k : String) (dflt : String) : String :=
  (dictGet d k).getD dflt

/-- The `np.mean` of a list of rationals (the service only takes means of non-empty
lists; division by zero in `ℚ` yields `0` for the empty list). -/
def npMean (l : List ℚ) : ℚ := l.sum / l.length

/-- Population variance, as used inside `np.std` (`std = sqrt(variance)`). -/
def npVariance (l : List ℚ) : ℚ := npMean (l.map (fun x => (x - npMean l) ^ 2))

/-- Abstract model of the Python/NumPy runtime functions the service calls whose
values are irrelevant to (and universally quantified in) every claim:
* `pyHash` — Python's salted `hash` on strings;
* `md5Hex` — `hashlib.md5(...).hexdigest()`;
* `log1p` — `np.log1p` (a real-valued function, abstract over `ℚ`);
* `sqrt` — the square root inside `np.std`;
* `decisionFn m features` — the value of `self.models[m].decision_function(features)[0]`
  for the anomaly models, `none` meaning the call raises (as it does for the
  never-fitted default models, a `NotFittedError`). -/
structure PyEnv where
  pyHash : String → ℤ
  md5Hex : String → String
  log1p : ℚ → ℚ
  sqrt : ℚ → ℚ
  decisionFn : String → List ℚ → Option ℚ

/-! ## Fraud-detection service: decision logic (fraud_detector.py) -/

/-- Rule thresholds of `FraudDetectionService.__init__` (`self.thresholds`). -/
structure FraudThresholds where
  high_amount : ℚ
  velocity_transactions : ℤ
  velocity_timeframe_hours : ℤ
  international_risk_score : ℚ
  device_risk_threshold : ℚ
  behavioral_anomaly_threshold : ℚ
deriving DecidableEq, Repr

/-- The threshold values set in `__init__`. -/
def defaultThresholds : FraudThresholds :=
  { high_amount := 10000
    velocity_transactions := 10
    velocity_timeframe_hours := 1
    international_risk_score := 7/10
    device_risk_threshold := 8/10
    behavioral_anomaly_threshold := 3/4 }

/-- Fitted state of a `StandardScaler` after `fit` on a single-row `(1, n)` feature
matrix: the per-column mean is the feature value itself and the variance is `0`. -/
structure ScalerFit where
  mean : List ℚ
deriving DecidableEq, Repr

/-- Mutable state of a `FraudDetectionService` instance that `analyze_transaction`
reads or writes: the rule thresholds (read by `_apply_fraud_rules`) and the
per-model `StandardScaler`s (re-fitted by `fit_transform` on every request in
`_run_ml_models`).  The models and encoders are never written by
`analyze_transaction` (the supervised models are only used through the mocked
probability, `_encode_categorical` only hashes, and the anomaly models are only
read through `decision_function`). -/
structure ServiceState where
  thresholds : FraudThresholds
  scalers : List (String × Option ScalerFit)
deriving DecidableEq, Repr

/-- State of a freshly initialized service after `load_models` (scalers are
created for the supervised models and not yet fitted). -/
def initState : ServiceState :=
  { thresholds := defaultThresholds
    scalers := [("random_forest", none), ("xgboost", none), ("lightgbm", none)] }

/-- The `scaler.fit_transform(features)` on a `(1, n)` matrix: the scaler is re-fitted
from scratch on the given row (previous fit is discarded); with zero variance the
scale is `1`, so the transformed row is `x - mean(x) = 0` columnwise. -/
def fitTransform (features : List ℚ) : ScalerFit × List ℚ :=
  ({ mean := features }, features.map (fun x => x - x))

/-- Overwrite one scaler entry in the state. -/
def setScaler (st : ServiceState) (name : String) (fit : ScalerFit) : ServiceState :=
  { st with scalers := st.scalers.map (fun p => if p.1 == name then (p.1, some fit) else p) }

/-- The `_run_ml_models`: for each supervised model the scaler is re-fitted on the
request's features (`fit_transform`, whose result is bound to `scaled_features`
and never used afterwards), then the mocked fraud probability
`np.random.beta(2, 8)` is drawn — the `i`-th draw of the current generator state
`rng`.  Returns the score dict and the mutated service state. -/
def runMlModels (st : ServiceState) (features : List ℚ) (rng : ℕ → ℚ) :
    List (String × ℚ) × ServiceState :=
  let supervised := ["random_forest", "xgboost", "lightgbm"]
  let step := fun (acc : List (String × ℚ) × ServiceState × ℕ) (name : String) =>
    let (scores, st, i) := acc
    let (fit, _scaled) := fitTransform features
    let st := setScaler st name fit
    let fraud_prob := rng i
    (scores ++ [(name, fraud_prob)], st, i + 1)
  let (scores, st, _) := supervised.foldl step ([], st, 0)
  (scores, st)

/-- The `_detect_anomalies`: each anomaly model has a `decision_function`; its value
(abstracted by `env.decisionFn`) gives `min(abs(score), 1.0)`; if the call raises
(in particular the `NotFittedError` of the never-fitted default models) the
`except` branch records `0.0`. -/
def detectAnomalies (env : PyEnv) (features : List ℚ) : List (String × ℚ) :=
  ["isolation_forest", "autoencoder", "local_outlier"].map (fun name =>
    match env.decisionFn name features with
    | some v => (name, min |v| 1)
    | none => (name, 0))

/-- The `_encode_categorical`: hash-encoding `hash(value) % 100` for the configured
encoders, `0` otherwise (the bare `except` can only fire inside the `try`). -/
def encodeCategorical (env : PyEnv) (value : String) (encoderName : String) : ℚ :=
  if encoderName ∈ ["country", "payment_type", "device_type", "merchant_category"] then
    ((env.pyHash value).emod 100 : ℤ)
  else 0

/-- Indicator function used for Python's `1 if b else 0`. -/
def b2q (b : Bool) : ℚ := if b then 1 else 0

/-- The `_prepare_transaction_features`: the flat feature vector (row of the `(1, n)`
matrix). -/
def prepareTransactionFeatures (env : PyEnv) (t : TransactionData) (u : UserData)
    (d : DeviceInfo) (c : ContextData) : List ℚ :=
  -- Transaction features
  [t.amount,
   env.log1p t.amount,
   (t.hour : ℚ),
   (t.weekday : ℚ),
   b2q t.is_international,
   b2q t.is_recurring,
   ((t.hourly_transaction_count.getD 0 : ℤ) : ℚ),
   ((t.daily_transaction_count.getD 0 : ℤ) : ℚ),
   t.daily_amount_total.getD 0]
  -- User features
  ++ [((u.account_age_days : ℤ) : ℚ),
      env.log1p ((u.account_age_days : ℤ) : ℚ),
      b2q u.email_verified,
      b2q u.phone_verified,
      ((u.previous_fraud_reports : ℤ) : ℚ),
      ((u.chargebacks_count : ℤ) : ℚ),
      ((u.failed_login_attempts : ℤ) : ℚ),
      u.average_transaction_amount.getD 0,
      u.transaction_frequency.getD 0,
      u.profile_completeness.getD 0]
  -- Device features
  ++ [b2q d.is_mobile,
      b2q (d.is_proxy.getD false),
      (((d.device_fingerprint.getD "").length : ℕ) : ℚ),
      encodeCategorical env d.device_type "device_type"]
  -- Payment features
  ++ [encodeCategorical env t.payment_method.payment_type "payment_type",
      b2q t.payment_method.is_tokenized,
      t.payment_method.token_confidence.getD 0]
  -- Geographic features
  ++ (if dTruthy t.billing_address && dTruthy t.shipping_address then
        let billing_country := dictGetD (t.billing_address.getD []) "country" "unknown"
        let shipping_country := dictGetD (t.shipping_address.getD []) "country" "unknown"
        [encodeCategorical env billing_country "country",
         encodeCategorical env shipping_country "country",
         b2q (billing_country != shipping_country)]
      else [0, 0, 0])
  -- Time-based features
  ++ (match u.last_login_epoch with
      | some login => [env.log1p (t.epoch_seconds - login)]
      | none => [0])
  -- Session features
  ++ [((c.session_duration.getD 0 : ℤ) : ℚ),
      ((c.pages_visited.getD 0 : ℤ) : ℚ),
      ((c.time_to_transaction.getD 0 : ℤ) : ℚ),
      b2q c.holiday_indicator,
      b2q c.promotional_period]

/-- The `_apply_fraud_rules`: the rule-based indicator list (descriptions are kept as
their static text; the interpolated amounts/counts are irrelevant to all claims). -/
def applyFraudRules (th : FraudThresholds) (t : TransactionData) (u : UserData)
    (d : DeviceInfo) (_c : ContextData) : List RuleIndicator :=
  (if t.amount > th.high_amount then
    [{ type := "high_amount", severity := min (t.amount / 50000) 1,
       description := "High transaction amount" }]
   else [])
  ++ (match t.hourly_transaction_count with
      | some c =>
        if c ≠ 0 ∧ c > th.velocity_transactions then
          [{ type := "velocity_abuse", severity := min ((c : ℚ) / 20) 1,
             description := "High transaction velocity" }]
        else []
      | none => [])
  ++ (if u.account_age_days < 1 then
        [{ type := "new_account", severity := 7/10,
           description := "Transaction from newly created account" }]
      else [])
  ++ (if !u.email_verified || !u.phone_verified then
        [{ type := "unverified_account", severity := 1/2,
           description := "Transaction from unverified account" }]
      else [])
  ++ (if d.is_proxy.getD false then
        [{ type := "proxy_usage", severity := 3/5,
           description := "Transaction from proxy/VPN" }]
      else [])
  ++ (if t.hour < 6 ∨ t.hour > 23 then
        [{ type := "unusual_time", severity := 2/5,
           description := "Transaction during unusual hours" }]
      else [])
  ++ (if u.previous_fraud_reports > 0 then
        [{ type := "fraud_history", severity := min ((u.previous_fraud_reports : ℚ) / 5) 1,
           description := "User has previous fraud reports" }]
      else [])
  ++ (if u.failed_login_attempts > 3 then
        [{ type := "failed_logins", severity := min ((u.failed_login_attempts : ℚ) / 10) 1,
           description := "Recent failed login attempts" }]
      else [])

/-- The `_analyze_device_risk`. -/
def analyzeDeviceRisk (env : PyEnv) (d : DeviceInfo) (_u : UserData) : ℚ :=
  let r1 := if !sTruthy d.device_fingerprint then (3 : ℚ)/10 else 0
  let r2 := if d.is_proxy.getD false then (2 : ℚ)/5 else 0
  let device_hash :=
    env.md5Hex (if sTruthy d.device_fingerprint then d.device_fingerprint.getD "" else "")
  let r3 := if (env.pyHash device_hash).emod 100 > 95 then (1 : ℚ)/2 else 0
  min (r1 + r2 + r3) 1

/-- The `_analyze_behavioral_patterns`. -/
def analyzeBehavioralPatterns (t : TransactionData) (u : UserData) (c : ContextData) : ℚ :=
  let r1 :=
    if zTruthy c.time_to_transaction then
      if c.time_to_transaction.getD 0 < 10 then (3 : ℚ)/10
      else if c.time_to_transaction.getD 0 > 3600 then (1 : ℚ)/5
      else 0
    else 0
  let r2 :=
    if zTruthy c.pages_visited then
      if c.pages_visited.getD 0 < 2 then (1 : ℚ)/5
      else if c.pages_visited.getD 0 > 50 then (1 : ℚ)/10
      else 0
    else 0
  let r3 :=
    if qTruthy u.average_transaction_amount then
      let amount_ratio := t.amount / u.average_transaction_amount.getD 0
      if amount_ratio > 5 then (2 : ℚ)/5
      else if amount_ratio < 1/10 then (1 : ℚ)/5
      else 0
    else 0
  min (r1 + r2 + r3) 1

/-- The `_analyze_velocity_patterns`.  Returns `none` when the source raises: with
truthy `daily_amount_total` and `average_transaction_amount` the expression
`float(avg) * user.transaction_frequency or 1` is evaluated, a `TypeError` when
`transaction_frequency` is `None`; a zero product falls back to `1` through
Python's `or`. -/
def analyzeVelocityPatterns (t : TransactionData) (u : UserData) : Option ℚ :=
  let r1 :=
    if zTruthy t.hourly_transaction_count then
      if t.hourly_transaction_count.getD 0 > 5 then
        min (((t.hourly_transaction_count.getD 0 : ℤ) : ℚ) / 10) (1/2)
      else 0
    else 0
  let r2 :=
    if zTruthy t.daily_transaction_count then
      if t.daily_transaction_count.getD 0 > 10 then
        min (((t.daily_transaction_count.getD 0 : ℤ) : ℚ) / 20) (3/10)
      else 0
    else 0
  if qTruthy t.daily_amount_total && qTruthy u.average_transaction_amount then
    match u.transaction_frequency with
    | none => none
    | some freq =>
      let prod := u.average_transaction_amount.getD 0 * freq
      let denom := if prod = 0 then 1 else prod
      let daily_ratio := t.daily_amount_total.getD 0 / denom
      let r3 := if daily_ratio > 3 then min (daily_ratio / 10) (2/5) else 0
      some (min (r1 + r2 + r3) 1)
  else
    some (min (r1 + r2 + 0) 1)

/-- The `_analyze_geographic_risk`. -/
def analyzeGeographicRisk (t : TransactionData) (_u : UserData) (_d : DeviceInfo) : ℚ :=
  let r1 := if t.is_international then (3 : ℚ)/10 else 0
  let r2 :=
    if dTruthy t.billing_address && dTruthy t.shipping_address then
      let billing_country := dictGet (t.billing_address.getD []) "country"
      let shipping_country := dictGet (t.shipping_address.getD []) "country"
      if billing_country ≠ shipping_country then (1 : ℚ)/5 else 0
    else 0
  let r3 :=
    if dTruthy t.billing_address then
      let billing_country := dictGet (t.billing_address.getD []) "country"
      if billing_country = some "XX" ∨ billing_country = some "YY" ∨
         billing_country = some "ZZ" then (2 : ℚ)/5
      else 0
    else 0
  min (r1 + r2 + r3) 1

/-- The fixed ensemble weights of `_calculate_ensemble_score`. -/
def wMl : ℚ := 3/10
def wAnomaly : ℚ := 1/5
def wRules : ℚ := 1/5
def wDevice : ℚ := 1/10
def wBehavioral : ℚ := 1/10
def wVelocity : ℚ := 1/20
def wGeographic : ℚ := 1/20

/-- The `_calculate_ensemble_score`. -/
def calculateEnsembleScore (ml_scores anomaly_scores : List (String × ℚ))
    (rule_indicators : List RuleIndicator)
    (device_risk behavioral_risk velocity_risk geographic_risk : ℚ) : ℚ :=
  let s0 : ℚ := 0
  let s1 := if !ml_scores.isEmpty then
              s0 + npMean (ml_scores.map (·.2)) * wMl else s0
  let s2 := if !anomaly_scores.isEmpty then
              s1 + npMean (anomaly_scores.map (·.2)) * wAnomaly else s1
  let s3 := if !rule_indicators.isEmpty then
              s2 + npMean (rule_indicators.map (·.severity)) * wRules else s2
  let s4 := s3 + device_risk * wDevice
  let s5 := s4 + behavioral_risk * wBehavioral
  let s6 := s5 + velocity_risk * wVelocity
  let s7 := s6 + geographic_risk * wGeographic
  min s7 1

/-- The `_make_fraud_decision`. -/
def makeFraudDecision (fraud_score : ℚ) (rule_indicators : List RuleIndicator) :
    FraudDecision :=
  if rule_indicators.any (fun ind => ind.severity > 9/10) then
    FraudDecision.decline
  else if fraud_score ≥ 4/5 then FraudDecision.decline
  else if fraud_score ≥ 3/5 then FraudDecision.review
  else if fraud_score ≥ 2/5 then FraudDecision.challenge
  else FraudDecision.approve

/-- The `_score_to_risk_level`. -/
def scoreToRiskLevel (score : ℚ) : RiskLevel :=
  if score ≥ 4/5 then RiskLevel.critical
  else if score ≥ 3/5 then RiskLevel.high
  else if score ≥ 3/10 then RiskLevel.medium
  else RiskLevel.low

/-- The sort key of `_generate_fraud_indicators`
(`indicators.sort(key=lambda x: x.severity, reverse=True)`): `a` comes no later
than `b` when `a.severity ≥ b.severity`. -/
def sevGE (a b : FraudIndicator) : Prop := b.severity ≤ a.severity

instance : DecidableRel sevGE := fun a b => inferInstanceAs (Decidable (b.severity ≤ a.severity))

instance : IsTotal FraudIndicator sevGE := ⟨fun a b => le_total b.severity a.severity⟩

instance : IsTrans FraudIndicator sevGE := ⟨fun _ _ _ h1 h2 => le_trans h2 h1⟩

/-- The `_generate_fraud_indicators`: rule, ML, anomaly, device and behavioral
indicators, sorted by severity in descending order (a stable sort, as Python's). -/
def generateFraudIndicators (rule_indicators : List RuleIndicator)
    (ml_scores anomaly_scores : List (String × ℚ))
    (device_risk behavioral_risk _velocity_risk _geographic_risk : ℚ) :
    List FraudIndicator :=
  let indicators :=
    rule_indicators.map (fun ri =>
      { indicator_type := ri.type, description := ri.description,
        severity := ri.severity, confidence := 9/10,
        contributing_factors := [ri.type] : FraudIndicator })
    ++ (ml_scores.filterMap (fun p =>
        if p.2 > 1/2 then
          some { indicator_type := "ml_" ++ p.1,
                 description := "Machine learning model detected fraud patterns",
                 severity := p.2, confidence := 7/10,
                 contributing_factors := ["ml_prediction_" ++ p.1] }
        else none))
    ++ (anomaly_scores.filterMap (fun p =>
        if p.2 > 3/5 then
          some { indicator_type := "anomaly_" ++ p.1,
                 description := "Anomaly detection model detected unusual patterns",
                 severity := p.2, confidence := 3/5,
                 contributing_factors := ["anomaly_" ++ p.1] }
        else none))
    ++ (if device_risk > 1/2 then
          [{ indicator_type := "device_risk", description := "High device risk detected",
             severity := device_risk, confidence := 4/5,
             contributing_factors := ["device_analysis"] }]
        else [])
    ++ (if behavioral_risk > 1/2 then
          [{ indicator_type := "behavioral_risk",
             description := "Unusual behavioral patterns detected",
             severity := behavioral_risk, confidence := 7/10,
             contributing_factors := ["behavioral_analysis"] }]
        else [])
  indicators.insertionSort sevGE

/-- The `_generate_recommendations`.  The source returns `list(set(...))`, whose
iteration order is an artifact of Python's string hashing; the set's contents are
modeled by deduplicating the assembled list. -/
def generateRecommendations (_fraud_score : ℚ) (decision : FraudDecision)
    (indicators : List FraudIndicator) : List String :=
  let recommendations :=
    (match decision with
     | FraudDecision.decline =>
       ["Block transaction immediately", "Alert fraud investigation team",
        "Consider temporary account suspension",
        "Require additional verification for future transactions"]
     | FraudDecision.review =>
       ["Place transaction in manual review queue", "Contact customer for verification",
        "Monitor account for additional suspicious activity",
        "Consider lowering transaction limits temporarily"]
     | FraudDecision.challenge =>
       ["Require additional authentication (2FA, SMS)",
        "Ask for additional verification documents", "Monitor transaction completion",
        "Set up enhanced monitoring for this account"]
     | FraudDecision.approve => [])
  let indicator_types := indicators.map (·.indicator_type)
  let recommendations := recommendations
    ++ (if "high_amount" ∈ indicator_types then
          ["Consider implementing daily/monthly spending limits"] else [])
    ++ (if "velocity_abuse" ∈ indicator_types then
          ["Implement velocity controls and cooling-off periods"] else [])
    ++ (if "proxy_usage" ∈ indicator_types then
          ["Block transactions from known proxy/VPN services"] else [])
    ++ (if "new_account" ∈ indicator_types then
          ["Require additional verification for new accounts"] else [])
  recommendations.dedup

/-- The `_calculate_confidence`.  `np.isnan` is identically false on the rational
feature embedding (NaN is a float artifact), so `missing_ratio = 0` and the data
quality factor is `1`. -/
def calculateConfidence (env : PyEnv) (ml_scores anomaly_scores : List (String × ℚ))
    (_features : List ℚ) : ℚ :=
  let all_scores := ml_scores.map (·.2) ++ anomaly_scores.map (·.2)
  let agreement_factors :=
    if !all_scores.isEmpty then
      [max 0 (1 - env.sqrt (npVariance all_scores) * 2)]
    else []
  let missing_ratio : ℚ := 0
  let confidence_factors := agreement_factors ++ [1 - missing_ratio] ++ [4/5]
  npMean confidence_factors

/-- The `FraudDetectionResult` (the fields the claims are about; wall-clock timing and
the constant model-version string are not part of the embedding). -/
structure FraudDetectionResult where
  fraud_score : ℚ
  decision : FraudDecision
  confidence_score : ℚ
  indicators : List FraudIndicator
  recommendations : List String
  primary_indicator : Option String
deriving DecidableEq, Repr

/-- The `analyze_transaction`: the full scoring pipeline.  Returns the result (or the
raised exception, propagated by the service's `except` clause) together with the
mutated service state; the scaler re-fits of `_run_ml_models` happen before
`_analyze_velocity_patterns` can raise, so they persist on the error path too.
`rng i` is the `i`-th `np.random.beta(2, 8)` draw of the generator state at call
time. -/
def analyzeTransaction (env : PyEnv) (st : ServiceState) (t : TransactionData)
    (u : UserData) (d : DeviceInfo) (c : ContextData) (rng : ℕ → ℚ) :
    Except String FraudDetectionResult × ServiceState :=
  let features := prepareTransactionFeatures env t u d c
  let rule_indicators := applyFraudRules st.thresholds t u d c
  let ml_scores := (runMlModels st features rng).1
  let st' := (runMlModels st features rng).2
  let anomaly_scores := detectAnomalies env features
  let device_risk := analyzeDeviceRisk env d u
  let behavioral_risk := analyzeBehavioralPatterns t u c
  match analyzeVelocityPatterns t u with
  | none => (Except.error "TypeError", st')
  | some velocity_risk =>
    let geographic_risk := analyzeGeographicRisk t u d
    let fraud_score := calculateEnsembleScore ml_scores anomaly_scores rule_indicators
      device_risk behavioral_risk velocity_risk geographic_risk
    let decision := makeFraudDecision fraud_score rule_indicators
    let indicators := generateFraudIndicators rule_indicators ml_scores anomaly_scores
      device_risk behavioral_risk velocity_risk geographic_risk
    let recommendations := generateRecommendations fraud_score decision indicators
    let confidence_score := calculateConfidence env ml_scores anomaly_scores features
    (Except.ok
      { fraud_score := fraud_score
        decision := decision
        confidence_score := confidence_score
        indicators := indicators
        recommendations := recommendations
        primary_indicator := (indicators.head?).map (·.indicator_type) }, st')

/-- The `TransactionAnalysisResponse` (the fields `bulk_analyze_transactions` fills;
`risk_factors` is always the empty list there, timing/metadata fields are not part
of the embedding). -/
structure TransactionAnalysisResponse where
  transaction_id : String
  fraud_score : ℚ
  risk_level : RiskLevel
  decision : FraudDecision
  indicators : List FraudIndicator
  recommendations : List String
  confidence_score : ℚ
deriving DecidableEq, Repr

/-- The response `bulk_analyze_transactions` builds from one analysis result. -/
def mkTxResponse (tid : String) (r : FraudDetectionResult) : TransactionAnalysisResponse :=
  { transaction_id := tid
    fraud_score := r.fraud_score
    risk_level := scoreToRiskLevel r.fraud_score
    decision := r.decision
    indicators := r.indicators
    recommendations := r.recommendations
    confidence_score := r.confidence_score }

/-- One entry of the `transactions` list of `bulk_analyze_transactions`
(the `'transaction'`/`'user'`/`'device'`/`'context'` dict). -/
structure AnalysisRequest where
  transaction : TransactionData
  user : UserData
  device : DeviceInfo
  context : ContextData
deriving DecidableEq, Repr

/-! ## Bulk processing (`bulk_analyze_transactions`, `bulk_optimize_prices`)

Both bulk endpoints cut the input list into fixed-size batches, run the per-item
operation over each batch with `asyncio.gather(..., return_exceptions=True)` and
walk the batch results in order, storing each non-exception result in a dict under
the item's id and only logging exceptions.  `gather` preserves input order and the
per-item calls are independent, so a batch is a left fold of its items in order;
the per-item operation (which may raise) is abstracted as an `Except`-valued
function. -/

/-- The input list cut into consecutive batches of `n`
(`transactions[i:i + batch_size]`). -/
def chunksOf : ℕ → List α → List (List α)
  | _, [] => []
  | 0, _ :: _ => []
  | n+1, x :: xs => (x :: xs.take n) :: chunksOf (n+1) (xs.drop n)
termination_by _ l => l.length
decreasing_by
  simp only [List.length_drop, List.length_cons]
  omega

/-- Python `results[key] = value` on a dict modeled as an association list in
insertion order. -/
def dictInsert (m : List (String × β)) (k : String) (v : β) : List (String × β) :=
  if m.any (fun p => p.1 == k) then
    m.map (fun p => if p.1 == k then (k, v) else p)
  else m ++ [(k, v)]

/-- Python `results.get(key)` on the association-list dict. -/
def dictLookup (m : List (String × β)) (k : String) : Option β :=
  (m.find? (fun p => p.1 == k)).map (·.2)

/-- Handling of one gathered batch result: store a success under its key, skip an
exception (`isinstance(result, Exception)`). -/
def bulkStep (key : α → String) (f : α → Except String β)
    (acc : List (String × β)) (item : α) : List (String × β) :=
  match f item with
  | Except.ok b => dictInsert acc (key item) b
  | Except.error _ => acc

/-- The shared batched accumulation loop of both bulk endpoints. -/
def bulkProcess (batchSize : ℕ) (key : α → String) (f : α → Except String β)
    (items : List α) : List (String × β) :=
  (chunksOf batchSize items).foldl
    (fun acc batch => batch.foldl (bulkStep key f) acc) []

/-- The `bulk_analyze_transactions`, abstracted over the outcome of each
`analyze_transaction` call (`analyze r` is the result of the call on request `r`,
`.error` meaning the call raised): batches of 20, keyed by
`transaction.transaction_id`, each success converted by `mkTxResponse`. -/
def bulkAnalyzeTransactions
    (analyze : AnalysisRequest → Except String FraudDetectionResult)
    (transactions : List AnalysisRequest) :
    List (String × TransactionAnalysisResponse) :=
  bulkProcess 20 (fun r => r.transaction.transaction_id)
    (fun r => (analyze r).map (fun res => mkTxResponse r.transaction.transaction_id res))
    transactions

/-! ## Price-optimization service (price_optimizer.py, core/config.py) -/

/-- The `Settings.MIN_PROFIT_MARGIN` default (5%). -/
def MIN_PROFIT_MARGIN : ℚ := 1/20

/-- The `Settings.MAX_PRICE_CHANGE_PERCENT` default (20%). -/
def MAX_PRICE_CHANGE_PERCENT : ℚ := 1/5

/-- Python's `round` to an integer (banker's rounding: ties go to the even
integer). -/
def pyRound (q : ℚ) : ℤ :=
  let f := ⌊q⌋
  let r := q - f
  if r < 1/2 then f
  else if r > 1/2 then f + 1
  else if f % 2 = 0 then f else f + 1

/-- Python's `round(x, 2)`. -/
def round2 (q : ℚ) : ℚ := (pyRound (q * 100) : ℤ) / 100

/-- The `ModelPrediction` (the fields `_apply_business_rules` reads). -/
structure ModelPrediction where
  price : ℚ
  confidence : ℚ
  model_used : String
deriving DecidableEq, Repr

/-- The `PricingConstraints` schema. -/
structure PricingConstraints where
  min_price : Option ℚ
  max_price : Option ℚ
  min_margin : Option ℚ
  round_to_nearest : Option ℚ
  psychological_pricing : Bool
deriving DecidableEq, Repr

/-- The `_get_ensemble_prediction`, abstracted over the per-model `predict` values
(`predict m scaled = none` means `self.models[m].predict(scaled)` raises — as the
never-fitted default models do — and the model is skipped).  Each surviving model
contributes its predicted price with the hard-coded confidence `0.8`; the scaler
is re-fitted on the single feature row, so `predict` sees the zero row. -/
def getEnsemblePrediction (predict : String → List ℚ → Option ℚ)
    (features : List ℚ) : List ModelPrediction :=
  ["random_forest", "xgboost", "lightgbm", "gradient_boosting", "elastic_net"].filterMap
    (fun name =>
      let scaled := (fitTransform features).2
      (predict name scaled).map (fun price =>
        { price := price, confidence := 4/5, model_used := name }))

/-- The user-constraints tail of `_apply_business_rules` (each guard is Python
truthiness, so a constraint set to `0`/`None` is skipped).  Note `min_margin = 1`
would divide by zero in Python; in `ℚ`, `cost / 0 = 0` (no claim exercises it). -/
def applyUserConstraints (cons : PricingConstraints) (price cost : ℚ) : ℚ :=
  let p := if qTruthy cons.min_price then max (cons.min_price.getD 0) price else price
  let p := if qTruthy cons.max_price then min (cons.max_price.getD 0) p else p
  let p := if qTruthy cons.min_margin then
             max (cost / (1 - cons.min_margin.getD 0)) p
           else p
  let p := if qTruthy cons.round_to_nearest then
             (pyRound (p / cons.round_to_nearest.getD 0) : ℤ) * cons.round_to_nearest.getD 0
           else p
  if cons.psychological_pricing then round2 (p - 1/100) else p

/-- The `_apply_business_rules`. -/
def applyBusinessRules (predictions : List ModelPrediction)
    (current_price cost : ℚ) (constraints : Option PricingConstraints) : ℚ :=
  if predictions.isEmpty then current_price
  else
    let total_weight := (predictions.map (·.confidence)).sum
    if total_weight = 0 then current_price
    else
      let weighted_price :=
        (predictions.map (fun p => p.price * p.confidence)).sum / total_weight
      let min_price := cost * (1 + MIN_PROFIT_MARGIN)
      let max_price_change := current_price * MAX_PRICE_CHANGE_PERCENT
      let optimized := max min_price weighted_price
      let optimized := max (current_price - max_price_change) optimized
      let optimized := min (current_price + max_price_change) optimized
      let optimized := match constraints with
        | none => optimized
        | some cons => applyUserConstraints cons optimized cost
      round2 optimized

/-- The impact numbers of `_calculate_impact`; `none` when the division by
`current_price` raises `ZeroDivisionError`. -/
structure ImpactAnalysis where
  demand_change : ℚ
  revenue_change : ℚ
  profit_change : ℚ
deriving DecidableEq, Repr

/-- The `_calculate_impact`. -/
def calculateImpact (current_price optimized_price : ℚ) : Option ImpactAnalysis :=
  if current_price = 0 then none
  else
    let price_change_percent := (optimized_price - current_price) / current_price * 100
    let elasticity : ℚ := -(6/5)
    let demand_change := elasticity * price_change_percent
    let revenue_change := price_change_percent + demand_change
    let current_profit_margin : ℚ := 1/4
    let profit_change := revenue_change * (1 + current_profit_margin)
    some { demand_change := demand_change, revenue_change := revenue_change,
           profit_change := profit_change }

/-- The `PriceOptimizationResponse` (the numeric fields the claims are about). -/
structure PriceOptimizationResponse where
  product_id : String
  current_price : ℚ
  recommended_price : ℚ
  price_change : ℚ
  price_change_percent : ℚ
  expected_demand_change : ℚ
  expected_revenue_change : ℚ
  expected_profit_change : ℚ
deriving DecidableEq, Repr

/-- The `optimize_product_price`, abstracted over the ensemble's prediction list (the
output of `_get_ensemble_prediction`, which the claims quantify over).  `none`
models the `ZeroDivisionError` raised by `_calculate_impact` — and, were that
reached, by the `price_change_percent` division of the response construction —
when `current_price = 0`. -/
def optimizeProductPrice (product_id : String) (current_price cost : ℚ)
    (predictions : List ModelPrediction) (constraints : Option PricingConstraints) :
    Option PriceOptimizationResponse :=
  let optimized_price := applyBusinessRules predictions current_price cost constraints
  match calculateImpact current_price optimized_price with
  | none => none
  | some impact =>
    if current_price = 0 then none
    else some
      { product_id := product_id
        current_price := current_price
        recommended_price := optimized_price
        price_change := optimized_price - current_price
        price_change_percent := (optimized_price - current_price) / current_price * 100
        expected_demand_change := impact.demand_change
        expected_revenue_change := impact.revenue_change
        expected_profit_change := impact.profit_change }

/-- The `ProductInfo` (the fields `bulk_optimize_prices` reads). -/
structure ProductInfo where
  product_id : String
  current_price : ℚ
  cost : ℚ
  inventory_level : ℤ
  constraints : Option PricingConstraints
deriving DecidableEq, Repr

/-- The `bulk_optimize_prices`, abstracted over the outcome of each
`optimize_product_price` call: batches of 10, keyed by `product_id`. -/
def bulkOptimizePrices
    (optimize : ProductInfo → Except String PriceOptimizationResponse)
    (products : List ProductInfo) :
    List (String × PriceOptimizationResponse) :=
  bulkProcess 10 (fun p => p.product_id) optimize products

/-! ## General lemmas -/

/-- The `pyRound` is within half a unit of its argument. -/
theorem pyRound_abs_le (q : ℚ) : |(pyRound q : ℚ) - q| ≤ 1/2 := by
  have h0 : ((⌊q⌋ : ℤ) : ℚ) ≤ q := Int.floor_le q
  have h1 : q < ((⌊q⌋ : ℤ) : ℚ) + 1 := Int.lt_floor_add_one q
  simp only [pyRound]
  split_ifs with ha hb hc <;> rw [abs_le] <;> push_cast <;> constructor <;> linarith

/-- The `round2` is within half a cent of its argument. -/
theorem round2_abs_le (q : ℚ) : |round2 q - q| ≤ 1/200 := by
  have h := pyRound_abs_le (q * 100)
  have he : round2 q - q = ((pyRound (q * 100) : ℚ) - q * 100) / 100 := by
    unfold round2; ring
  rw [abs_le] at h ⊢
  rw [he]
  constructor <;> [linarith [h.1]; linarith [h.2]]

/-- A mean of values in `[0, 1]` lies in `[0, 1]` (and the mean of `[]` is `0`). -/
theorem npMean_mem_unit (l : List ℚ) (h : ∀ x ∈ l, 0 ≤ x ∧ x ≤ 1) :
    0 ≤ npMean l ∧ npMean l ≤ 1 := by
  rcases eq_or_ne l [] with rfl | hne
  · simp [npMean]
  · have hlen : 0 < (l.length : ℚ) := by
      have := List.length_pos.mpr hne
      exact_mod_cast this
    have hsum0 : 0 ≤ l.sum := List.sum_nonneg (fun x hx => (h x hx).1)
    have hsum1 : l.sum ≤ (l.length : ℚ) := by
      have := List.sum_le_card_nsmul l 1 (fun x hx => (h x hx).2)
      simpa using this
    constructor
    · exact div_nonneg hsum0 (le_of_lt hlen)
    · rw [npMean, div_le_one hlen]; exact hsum1

/-! ## C2 and C10: decision and risk-level thresholds -/

/-- Rank of a fraud decision on the APPROVE < CHALLENGE < REVIEW < DECLINE scale. -/
def decisionRank : FraudDecision → ℕ
  | FraudDecision.approve => 0
  | FraudDecision.challenge => 1
  | FraudDecision.review => 2
  | FraudDecision.decline => 3

/-- Rank of a risk level on the LOW < MEDIUM < HIGH < CRITICAL scale. -/
def riskRank : RiskLevel → ℕ
  | RiskLevel.low => 0
  | RiskLevel.medium => 1
  | RiskLevel.high => 2
  | RiskLevel.critical => 3

/-- Without a critical rule indicator, `_make_fraud_decision` reduces to its pure
score-threshold chain. -/
theorem makeFraudDecision_score_eq (s : ℚ) (inds : List RuleIndicator)
    (h : ∀ ind ∈ inds, ¬ind.severity > 9/10) :
    makeFraudDecision s inds =
      (if 4/5 ≤ s then FraudDecision.decline
       else if 3/5 ≤ s then FraudDecision.review
       else if 2/5 ≤ s then FraudDecision.challenge
       else FraudDecision.approve) := by
  have hf : (inds.any fun ind => ind.severity > 9/10) = false := by
    simp only [List.any_eq_false, decide_eq_true_eq]
    exact h
  unfold makeFraudDecision
  rw [if_neg (by simp [hf])]

/-- C2: `_make_fraud_decision` returns DECLINE whenever some rule indicator has
severity above `0.9`; otherwise the decision is exactly determined by the score
bands `[0.8, ∞) ↦ DECLINE`, `[0.6, 0.8) ↦ REVIEW`, `[0.4, 0.6) ↦ CHALLENGE` and
`(-∞, 0.4) ↦ APPROVE` (the four characterizations are mutually exclusive and
exhaustive, so exactly one decision is produced for every input), and without a
critical indicator the decision is monotone in the score. -/
theorem makeFraudDecision_spec (s : ℚ) (inds : List RuleIndicator) :
    ((∃ ind ∈ inds, ind.severity > 9/10) → makeFraudDecision s inds = FraudDecision.decline)
    ∧ ((∀ ind ∈ inds, ¬ind.severity > 9/10) →
        ((makeFraudDecision s inds = FraudDecision.decline ↔ 4/5 ≤ s)
          ∧ (makeFraudDecision s inds = FraudDecision.review ↔ 3/5 ≤ s ∧ s < 4/5)
          ∧ (makeFraudDecision s inds = FraudDecision.challenge ↔ 2/5 ≤ s ∧ s < 3/5)
          ∧ (makeFraudDecision s inds = FraudDecision.approve ↔ s < 2/5)))
    ∧ (∀ s', (∀ ind ∈ inds, ¬ind.severity > 9/10) → s ≤ s' →
        decisionRank (makeFraudDecision s inds) ≤ decisionRank (makeFraudDecision s' inds)) := by
  refine ⟨?_, ?_, ?_⟩
  · intro h
    unfold makeFraudDecision
    rw [if_pos]
    simpa [List.any_eq_true] using h
  · intro h
    rw [makeFraudDecision_score_eq s inds h]
    by_cases h1 : (4:ℚ)/5 ≤ s
    · rw [if_pos h1]
      exact ⟨iff_of_true rfl h1,
        iff_of_false (by simp) (fun hx => absurd hx.2 (not_lt.mpr h1)),
        iff_of_false (by simp) (fun hx => absurd hx.2 (not_lt.mpr (by linarith))),
        iff_of_false (by simp) (not_lt.mpr (by linarith))⟩
    · rw [if_neg h1]
      push_neg at h1
      by_cases h2 : (3:ℚ)/5 ≤ s
      · rw [if_pos h2]
        exact ⟨iff_of_false (by simp) (not_le.mpr h1),
          iff_of_true rfl ⟨h2, h1⟩,
          iff_of_false (by simp) (fun hx => absurd hx.2 (not_lt.mpr h2)),
          iff_of_false (by simp) (not_lt.mpr (by linarith))⟩
      · rw [if_neg h2]
        push_neg at h2
        by_cases h3 : (2:ℚ)/5 ≤ s
        · rw [if_pos h3]
          exact ⟨iff_of_false (by simp) (not_le.mpr (by linarith)),
            iff_of_false (by simp) (fun hx => absurd hx.1 (not_le.mpr h2)),
            iff_of_true rfl ⟨h3, h2⟩,
            iff_of_false (by simp) (not_lt.mpr h3)⟩
        · rw [if_neg h3]
          push_neg at h3
          exact ⟨iff_of_false (by simp) (not_le.mpr (by linarith)),
            iff_of_false (by simp) (fun hx => absurd hx.1 (not_le.mpr (by linarith))),
            iff_of_false (by simp) (fun hx => absurd hx.1 (not_le.mpr h3)),
            iff_of_true rfl h3⟩
  · intro s' h hs
    rw [makeFraudDecision_score_eq s inds h, makeFraudDecision_score_eq s' inds h]
    split_ifs <;> simp only [decisionRank] <;> first | decide | (exfalso; linarith)

/-- C2 witness: score `0.7` without critical indicators yields REVIEW, and the
decision at `0.5` ranks no higher than the decision at `0.7`. -/
theorem makeFraudDecision_spec_witness :
    makeFraudDecision (7/10) [] = FraudDecision.review
    ∧ decisionRank (makeFraudDecision (1/2) []) ≤ decisionRank (makeFraudDecision (7/10) []) :=
  ⟨((makeFraudDecision_spec (7/10) []).2.1 (by simp)).2.1.mpr (by norm_num),
   (makeFraudDecision_spec (1/2) []).2.2 (7/10) (by simp) (by norm_num)⟩

/-- C10: `_score_to_risk_level` is a total, monotone mapping with bands
`[0.8, ∞) ↦ CRITICAL`, `[0.6, 0.8) ↦ HIGH`, `[0.3, 0.6) ↦ MEDIUM` and
`(-∞, 0.3) ↦ LOW`; its lowest threshold `0.3` differs from the decision threshold
`0.4`, so the score `0.35` is risk-level MEDIUM yet (absent critical indicators)
decision APPROVE. -/
theorem scoreToRiskLevel_spec (s : ℚ) :
    (scoreToRiskLevel s = RiskLevel.critical ↔ 4/5 ≤ s)
    ∧ (scoreToRiskLevel s = RiskLevel.high ↔ 3/5 ≤ s ∧ s < 4/5)
    ∧ (scoreToRiskLevel s = RiskLevel.medium ↔ 3/10 ≤ s ∧ s < 3/5)
    ∧ (scoreToRiskLevel s = RiskLevel.low ↔ s < 3/10)
    ∧ (∀ s', s ≤ s' → riskRank (scoreToRiskLevel s) ≤ riskRank (scoreToRiskLevel s'))
    ∧ (scoreToRiskLevel (7/20) = RiskLevel.medium
        ∧ makeFraudDecision (7/20) [] = FraudDecision.approve) := by
  have hbands : (scoreToRiskLevel s = RiskLevel.critical ↔ 4/5 ≤ s)
      ∧ (scoreToRiskLevel s = RiskLevel.high ↔ 3/5 ≤ s ∧ s < 4/5)
      ∧ (scoreToRiskLevel s = RiskLevel.medium ↔ 3/10 ≤ s ∧ s < 3/5)
      ∧ (scoreToRiskLevel s = RiskLevel.low ↔ s < 3/10) := by
    unfold scoreToRiskLevel
    by_cases h1 : (4:ℚ)/5 ≤ s
    · rw [if_pos h1]
      exact ⟨iff_of_true rfl h1,
        iff_of_false (by simp) (fun hx => absurd hx.2 (not_lt.mpr h1)),
        iff_of_false (by simp) (fun hx => absurd hx.2 (not_lt.mpr (by linarith))),
        iff_of_false (by simp) (not_lt.mpr (by linarith))⟩
    · rw [if_neg h1]
      push_neg at h1
      by_cases h2 : (3:ℚ)/5 ≤ s
      · rw [if_pos h2]
        exact ⟨iff_of_false (by simp) (not_le.mpr h1),
          iff_of_true rfl ⟨h2, h1⟩,
          iff_of_false (by simp) (fun hx => absurd hx.2 (not_lt.mpr h2)),
          iff_of_false (by simp) (not_lt.mpr (by linarith))⟩
      · rw [if_neg h2]
        push_neg at h2
        by_cases h3 : (3:ℚ)/10 ≤ s
        · rw [if_pos h3]
          exact ⟨iff_of_false (by simp) (not_le.mpr (by linarith)),
            iff_of_false (by simp) (fun hx => absurd hx.1 (not_le.mpr h2)),
            iff_of_true rfl ⟨h3, h2⟩,
            iff_of_false (by simp) (not_lt.mpr h3)⟩
        · rw [if_neg h3]
          push_neg at h3
          exact ⟨iff_of_false (by simp) (not_le.mpr (by linarith)),
            iff_of_false (by simp) (fun hx => absurd hx.1 (not_le.mpr (by linarith))),
            iff_of_false (by simp) (fun hx => absurd hx.1 (not_le.mpr h3)),
            iff_of_true rfl h3⟩
  refine ⟨hbands.1, hbands.2.1, hbands.2.2.1, hbands.2.2.2, ?_, ?_, ?_⟩
  · intro s' hs
    unfold scoreToRiskLevel
    split_ifs <;> simp only [riskRank] <;> first | decide | (exfalso; linarith)
  · unfold scoreToRiskLevel
    norm_num
  · rw [makeFraudDecision_score_eq _ _ (by simp)]
    norm_num

/-- C10 witness: monotonicity instance at scores `0.25 ≤ 0.5`. -/
theorem scoreToRiskLevel_spec_witness :
    riskRank (scoreToRiskLevel (1/4)) ≤ riskRank (scoreToRiskLevel (1/2)) :=
  (scoreToRiskLevel_spec (1/4)).2.2.2.2.1 (1/2) (by norm_num)

/-! ## C9: division-by-zero guard of the price optimizer -/

/-- C9: `current_price = 0` makes `optimize_product_price` raise
`ZeroDivisionError` (first reached in `_calculate_impact`), and under
`current_price > 0` every division of `optimize_product_price` and
`_calculate_impact` is well-defined — a response is always produced. -/
theorem optimizeProductPrice_div_guard (pid : String) (current cost : ℚ)
    (preds : List ModelPrediction) (cons : Option PricingConstraints) :
    (current = 0 →
      calculateImpact current (applyBusinessRules preds current cost cons) = none
      ∧ optimizeProductPrice pid current cost preds cons = none)
    ∧ (0 < current →
      (calculateImpact current (applyBusinessRules preds current cost cons)).isSome = true
      ∧ (optimizeProductPrice pid current cost preds cons).isSome = true) := by
  constructor
  · intro h
    refine ⟨by simp [calculateImpact, h], ?_⟩
    simp [optimizeProductPrice, calculateImpact, h]
  · intro h
    have hne : current ≠ 0 := ne_of_gt h
    refine ⟨by simp [calculateImpact, hne], ?_⟩
    simp [optimizeProductPrice, calculateImpact, hne]

/-- C9 witness: the zero price raises, the positive price succeeds. -/
theorem optimizeProductPrice_div_guard_witness :
    optimizeProductPrice "p0" 0 1 [] none = none
    ∧ (optimizeProductPrice "p1" 2 1 [] none).isSome = true :=
  ⟨((optimizeProductPrice_div_guard "p0" 0 1 [] none).1 rfl).2,
   ((optimizeProductPrice_div_guard "p1" 2 1 [] none).2 (by norm_num)).2⟩

/-! ## C8: pass-through when the ensemble yields nothing -/

/-- C8: when the ensemble produced no predictions (in particular when every
model's `predict` raises) or the total confidence weight is zero,
`_apply_business_rules` returns exactly `current_price`, so
`optimize_product_price` recommends the unchanged current price with
`price_change = 0`. -/
theorem applyBusinessRules_passthrough (pid : String) (current cost : ℚ)
    (preds : List ModelPrediction) (cons : Option PricingConstraints)
    (predict : String → List ℚ → Option ℚ) (features : List ℚ) :
    (preds = [] → applyBusinessRules preds current cost cons = current)
    ∧ ((preds.map (·.confidence)).sum = 0 →
        applyBusinessRules preds current cost cons = current)
    ∧ ((∀ name scaled, predict name scaled = none) →
        getEnsemblePrediction predict features = [])
    ∧ (preds = [] → current ≠ 0 →
        (optimizeProductPrice pid current cost preds cons).map
          (fun r => (r.recommended_price, r.price_change)) = some (current, 0))
    ∧ ((preds.map (·.confidence)).sum = 0 → current ≠ 0 →
        (optimizeProductPrice pid current cost preds cons).map
          (fun r => (r.recommended_price, r.price_change)) = some (current, 0)) := by
  have habr0 : preds = [] → applyBusinessRules preds current cost cons = current := by
    intro h; subst h; simp [applyBusinessRules]
  have habr1 : (preds.map (·.confidence)).sum = 0 →
      applyBusinessRules preds current cost cons = current := by
    intro h
    by_cases he : preds.isEmpty <;> simp [applyBusinessRules, he, h]
  refine ⟨habr0, habr1, ?_, ?_, ?_⟩
  · intro hp
    simp [getEnsemblePrediction, hp]
  · intro h hne
    simp [optimizeProductPrice, calculateImpact, hne, habr0 h]
  · intro h hne
    simp [optimizeProductPrice, calculateImpact, hne, habr1 h]

/-- C8 witness: empty predictions (every `predict` raising) pass the price `10`
through unchanged. -/
theorem applyBusinessRules_passthrough_witness :
    applyBusinessRules [] 10 1 none = 10
    ∧ getEnsemblePrediction (fun _ _ => none) [] = []
    ∧ (optimizeProductPrice "p" 10 1 [] none).map
        (fun r => (r.recommended_price, r.price_change)) = some (10, 0) :=
  ⟨(applyBusinessRules_passthrough "p" 10 1 [] none (fun _ _ => none) []).1 rfl,
   (applyBusinessRules_passthrough "p" 10 1 [] none (fun _ _ => none) []).2.2.1
     (fun _ _ => rfl),
   (applyBusinessRules_passthrough "p" 10 1 [] none (fun _ _ => none) []).2.2.2.1 rfl
     (by norm_num)⟩

/-! ## C3: business constraints on the recommended price -/

/-- C3 counterexample: with the default settings, a single ensemble prediction of
`50` at the hard-coded confidence `0.8`, `current_price = 10` and `cost = 100`,
the ±20% band clamp is applied after the minimum-margin floor, so the recommended
price is `12`, strictly below the floor `cost * (1 + MIN_PROFIT_MARGIN) = 105`:
the claimed floor guarantee fails. -/
theorem applyBusinessRules_floor_counterexample :
    (optimizeProductPrice "p1" 10 100
        [{ price := 50, confidence := 4/5, model_used := "random_forest" }] none).map
      (·.recommended_price) = some 12
    ∧ ¬(100 * (1 + MIN_PROFIT_MARGIN) ≤ 12) := by
  constructor
  · simp only [optimizeProductPrice, applyBusinessRules, calculateImpact]
    norm_num [MIN_PROFIT_MARGIN, MAX_PRICE_CHANGE_PERCENT, min_def, max_def,
      round2, pyRound]
  · norm_num [MIN_PROFIT_MARGIN]

/-- C3 (amended): with `current_price > 0`, `cost ≥ 0`, no user constraints, and
an ensemble that produced at least one prediction with nonzero total confidence
weight, the recommended price lies within the ±20% band and above
`min(margin floor, band top)`, each up to the half-cent slack of the final
rounding to 2 decimals; the margin floor itself is honored only when it does not
exceed the top of the band (the counterexample shows it is cut off there). -/
theorem applyBusinessRules_band (pid : String) (current cost : ℚ)
    (hcur : 0 < current) (_hcost : 0 ≤ cost) (preds : List ModelPrediction)
    (hne : preds ≠ []) (hw : (preds.map (·.confidence)).sum ≠ 0) :
    (optimizeProductPrice pid current cost preds none).map (·.recommended_price)
      = some (applyBusinessRules preds current cost none)
    ∧ current - current * MAX_PRICE_CHANGE_PERCENT - 1/200
        ≤ applyBusinessRules preds current cost none
    ∧ applyBusinessRules preds current cost none
        ≤ current + current * MAX_PRICE_CHANGE_PERCENT + 1/200
    ∧ min (cost * (1 + MIN_PROFIT_MARGIN)) (current + current * MAX_PRICE_CHANGE_PERCENT)
        - 1/200 ≤ applyBusinessRules preds current cost none := by
  have hcne : current ≠ 0 := ne_of_gt hcur
  have habr : applyBusinessRules preds current cost none =
      round2 (min (current + current * MAX_PRICE_CHANGE_PERCENT)
        (max (current - current * MAX_PRICE_CHANGE_PERCENT)
          (max (cost * (1 + MIN_PROFIT_MARGIN))
            ((preds.map (fun p => p.price * p.confidence)).sum
              / (preds.map (·.confidence)).sum)))) := by
    simp [applyBusinessRules, hne, hw]
  have hmc : 0 ≤ current * MAX_PRICE_CHANGE_PERCENT := by
    unfold MAX_PRICE_CHANGE_PERCENT
    positivity
  set lo := current - current * MAX_PRICE_CHANGE_PERCENT with hlo
  set hi := current + current * MAX_PRICE_CHANGE_PERCENT with hhi
  set fl := cost * (1 + MIN_PROFIT_MARGIN) with hfl
  set W := (preds.map (fun p => p.price * p.confidence)).sum
    / (preds.map (·.confidence)).sum with hW
  have hlohi : lo ≤ hi := by rw [hlo, hhi]; linarith
  set clamp := min hi (max lo (max fl W)) with hclamp
  have h1 : lo ≤ clamp := by
    calc lo = min hi lo := (min_eq_right hlohi).symm
    _ ≤ clamp := min_le_min le_rfl (le_max_left _ _)
  have h2 : clamp ≤ hi := min_le_left _ _
  have h3 : min fl hi ≤ clamp := by
    calc min fl hi = min hi fl := min_comm _ _
    _ ≤ clamp := min_le_min le_rfl (le_trans (le_max_left _ _) (le_max_right _ _))
  have hr := round2_abs_le clamp
  rw [abs_le] at hr
  refine ⟨?_, ?_, ?_, ?_⟩
  · simp [optimizeProductPrice, calculateImpact, hcne]
  · rw [habr]; linarith [hr.1, h1]
  · rw [habr]; linarith [hr.2, h2]
  · rw [habr]; linarith [hr.1, h3]

/-- C3 witness: concrete instance of the amended bounds. -/
theorem applyBusinessRules_band_witness :
    (optimizeProductPrice "p" 10 2
        [{ price := 11, confidence := 4/5, model_used := "xgboost" }] none).map
      (·.recommended_price)
      = some (applyBusinessRules
          [{ price := 11, confidence := 4/5, model_used := "xgboost" }] 10 2 none)
    ∧ 10 - 10 * MAX_PRICE_CHANGE_PERCENT - 1/200
        ≤ applyBusinessRules
            [{ price := 11, confidence := 4/5, model_used := "xgboost" }] 10 2 none
    ∧ applyBusinessRules
        [{ price := 11, confidence := 4/5, model_used := "xgboost" }] 10 2 none
        ≤ 10 + 10 * MAX_PRICE_CHANGE_PERCENT + 1/200
    ∧ min (2 * (1 + MIN_PROFIT_MARGIN)) (10 + 10 * MAX_PRICE_CHANGE_PERCENT) - 1/200
        ≤ applyBusinessRules
            [{ price := 11, confidence := 4/5, model_used := "xgboost" }] 10 2 none :=
  applyBusinessRules_band "p" 10 2 (by norm_num) (by norm_num)
    [{ price := 11, confidence := 4/5, model_used := "xgboost" }]
    (by simp) (by norm_num)

/-! ## Fraud pipeline lemmas -/

/-- The score dict of `_run_ml_models` is exactly the first three mock
`np.random.beta(2, 8)` draws. -/
theorem runMlModels_fst (st : ServiceState) (features : List ℚ) (rng : ℕ → ℚ) :
    (runMlModels st features rng).1
      = [("random_forest", rng 0), ("xgboost", rng 1), ("lightgbm", rng 2)] := rfl

/-- Membership in a singleton-or-empty conditional list. -/
theorem mem_if_singleton {α : Type} {c : Prop} [Decidable c] {x a : α} :
    a ∈ (if c then [x] else []) ↔ c ∧ a = x := by
  split_ifs with h <;> simp [h]

/-- The `0 ≤ np.mean` of a list of nonnegative values. -/
theorem npMean_nonneg (l : List ℚ) (h : ∀ x ∈ l, 0 ≤ x) : 0 ≤ npMean l :=
  div_nonneg (List.sum_nonneg h) (by positivity)

/-- The claim-side mean: an empty score group contributes `0`. -/
def meanOrZero (l : List ℚ) : ℚ := if l = [] then 0 else npMean l

theorem meanOrZero_nonneg (l : List ℚ) (h : ∀ x ∈ l, 0 ≤ x) : 0 ≤ meanOrZero l := by
  unfold meanOrZero
  split_ifs with hl
  · exact le_refl 0
  · exact npMean_nonneg l h

/-- The `_calculate_ensemble_score` is the fixed-weight linear combination
`min(1, 0.3·mean(ml) + 0.2·mean(anomaly) + 0.2·mean(rule severities)
+ 0.1·device + 0.1·behavioral + 0.05·velocity + 0.05·geographic)`, an empty
score group contributing `0`. -/
theorem calculateEnsembleScore_eq (ml an : List (String × ℚ))
    (rules : List RuleIndicator) (dr br vr gr : ℚ) :
    calculateEnsembleScore ml an rules dr br vr gr
      = min 1 (3/10 * meanOrZero (ml.map (·.2)) + 1/5 * meanOrZero (an.map (·.2))
          + 1/5 * meanOrZero (rules.map (·.severity)) + 1/10 * dr + 1/10 * br
          + 1/20 * vr + 1/20 * gr) := by
  simp only [calculateEnsembleScore, meanOrZero, wMl, wAnomaly, wRules, wDevice,
    wBehavioral, wVelocity, wGeographic]
  by_cases h1 : ml = [] <;> by_cases h2 : an = [] <;> by_cases h3 : rules = [] <;>
    simp [h1, h2, h3, List.isEmpty_iff] <;> rw [min_comm] <;> congr 1 <;> ring

/-- Lower/upper bounds of the ensemble score from nonnegative components. -/
theorem calculateEnsembleScore_bounds (ml an : List (String × ℚ))
    (rules : List RuleIndicator) (dr br vr gr : ℚ)
    (hml : ∀ p ∈ ml, 0 ≤ p.2) (han : ∀ p ∈ an, 0 ≤ p.2)
    (hrules : ∀ i ∈ rules, 0 ≤ i.severity)
    (hdr : 0 ≤ dr) (hbr : 0 ≤ br) (hvr : 0 ≤ vr) (hgr : 0 ≤ gr) :
    0 ≤ calculateEnsembleScore ml an rules dr br vr gr
    ∧ calculateEnsembleScore ml an rules dr br vr gr ≤ 1 := by
  rw [calculateEnsembleScore_eq]
  have m1 : 0 ≤ meanOrZero (ml.map (·.2)) := by
    refine meanOrZero_nonneg _ ?_
    intro x hx
    obtain ⟨p, hp, rfl⟩ := List.mem_map.mp hx
    exact hml p hp
  have m2 : 0 ≤ meanOrZero (an.map (·.2)) := by
    refine meanOrZero_nonneg _ ?_
    intro x hx
    obtain ⟨p, hp, rfl⟩ := List.mem_map.mp hx
    exact han p hp
  have m3 : 0 ≤ meanOrZero (rules.map (·.severity)) := by
    refine meanOrZero_nonneg _ ?_
    intro x hx
    obtain ⟨p, hp, rfl⟩ := List.mem_map.mp hx
    exact hrules p hp
  constructor
  · refine le_min zero_le_one ?_
    have t1 : 0 ≤ (3:ℚ)/10 * meanOrZero (ml.map (·.2)) := by positivity
    have t2 : 0 ≤ (1:ℚ)/5 * meanOrZero (an.map (·.2)) := by positivity
    have t3 : 0 ≤ (1:ℚ)/5 * meanOrZero (rules.map (·.severity)) := by positivity
    linarith
  · exact min_le_left _ _

/-- Severities produced by `_apply_fraud_rules` (with the initializer's
thresholds) all lie in `[0, 1]`. -/
theorem applyFraudRules_severity_bounds (t : TransactionData) (u : UserData)
    (d : DeviceInfo) (c : ContextData) :
    ∀ ind ∈ applyFraudRules defaultThresholds t u d c,
      0 ≤ ind.severity ∧ ind.severity ≤ 1 := by
  intro ind hind
  cases hvc : t.hourly_transaction_count with
  | none =>
    simp only [applyFraudRules, hvc, List.mem_append, List.append_nil,
      mem_if_singleton, List.not_mem_nil, or_false, false_or, or_assoc,
      defaultThresholds] at hind
    rcases hind with ⟨hc, rfl⟩ | ⟨hc, rfl⟩ | ⟨hc, rfl⟩ | ⟨hc, rfl⟩ | ⟨hc, rfl⟩ |
      ⟨hc, rfl⟩ | ⟨hc, rfl⟩
    · exact ⟨le_min (div_nonneg (by linarith) (by norm_num)) (by norm_num),
        min_le_right _ _⟩
    · norm_num
    · norm_num
    · norm_num
    · norm_num
    · have : (0:ℚ) < (u.previous_fraud_reports : ℚ) := by exact_mod_cast hc
      exact ⟨le_min (div_nonneg (by linarith) (by norm_num)) (by norm_num),
        min_le_right _ _⟩
    · have : (3:ℚ) < (u.failed_login_attempts : ℚ) := by exact_mod_cast hc
      exact ⟨le_min (div_nonneg (by linarith) (by norm_num)) (by norm_num),
        min_le_right _ _⟩
  | some cnt =>
    simp only [applyFraudRules, hvc, List.mem_append, List.append_nil,
      mem_if_singleton, List.not_mem_nil, or_false, false_or, or_assoc,
      defaultThresholds] at hind
    rcases hind with ⟨hc, rfl⟩ | ⟨hc, rfl⟩ | ⟨hc, rfl⟩ | ⟨hc, rfl⟩ | ⟨hc, rfl⟩ |
      ⟨hc, rfl⟩ | ⟨hc, rfl⟩ | ⟨hc, rfl⟩
    · exact ⟨le_min (div_nonneg (by linarith) (by norm_num)) (by norm_num),
        min_le_right _ _⟩
    · have : (10:ℚ) < (cnt : ℚ) := by exact_mod_cast hc.2
      exact ⟨le_min (div_nonneg (by linarith) (by norm_num)) (by norm_num),
        min_le_right _ _⟩
    · norm_num
    · norm_num
    · norm_num
    · norm_num
    · have : (0:ℚ) < (u.previous_fraud_reports : ℚ) := by exact_mod_cast hc
      exact ⟨le_min (div_nonneg (by linarith) (by norm_num)) (by norm_num),
        min_le_right _ _⟩
    · have : (3:ℚ) < (u.failed_login_attempts : ℚ) := by exact_mod_cast hc
      exact ⟨le_min (div_nonneg (by linarith) (by norm_num)) (by norm_num),
        min_le_right _ _⟩

/-- The `_analyze_device_risk` lies in `[0, 1]`. -/
theorem analyzeDeviceRisk_bounds (env : PyEnv) (d : DeviceInfo) (u : UserData) :
    0 ≤ analyzeDeviceRisk env d u ∧ analyzeDeviceRisk env d u ≤ 1 := by
  simp only [analyzeDeviceRisk]
  refine ⟨le_min ?_ (by norm_num), min_le_right _ _⟩
  split_ifs <;> norm_num

/-- The `_analyze_behavioral_patterns` lies in `[0, 1]`. -/
theorem analyzeBehavioralPatterns_bounds (t : TransactionData) (u : UserData)
    (c : ContextData) :
    0 ≤ analyzeBehavioralPatterns t u c ∧ analyzeBehavioralPatterns t u c ≤ 1 := by
  simp only [analyzeBehavioralPatterns]
  refine ⟨le_min ?_ (by norm_num), min_le_right _ _⟩
  split_ifs <;> norm_num

/-- The `_analyze_geographic_risk` lies in `[0, 1]`. -/
theorem analyzeGeographicRisk_bounds (t : TransactionData) (u : UserData)
    (d : DeviceInfo) :
    0 ≤ analyzeGeographicRisk t u d ∧ analyzeGeographicRisk t u d ≤ 1 := by
  simp only [analyzeGeographicRisk]
  refine ⟨le_min ?_ (by norm_num), min_le_right _ _⟩
  split_ifs <;> norm_num

/-- When `_analyze_velocity_patterns` does not raise, its value lies in `[0, 1]`. -/
theorem analyzeVelocityPatterns_bounds (t : TransactionData) (u : UserData) :
    ∀ v, analyzeVelocityPatterns t u = some v → 0 ≤ v ∧ v ≤ 1 := by
  intro v hv
  simp only [analyzeVelocityPatterns] at hv
  set r1 := (if zTruthy t.hourly_transaction_count then
      if t.hourly_transaction_count.getD 0 > 5 then
        min (((t.hourly_transaction_count.getD 0 : ℤ) : ℚ) / 10) (1/2)
      else 0
    else 0) with hr1def
  set r2 := (if zTruthy t.daily_transaction_count then
      if t.daily_transaction_count.getD 0 > 10 then
        min (((t.daily_transaction_count.getD 0 : ℤ) : ℚ) / 20) (3/10)
      else 0
    else 0) with hr2def
  have hr1 : 0 ≤ r1 := by
    rw [hr1def]
    split_ifs with h1 h2
    · have hc : (5:ℚ) < ((t.hourly_transaction_count.getD 0 : ℤ) : ℚ) := by
        exact_mod_cast h2
      exact le_min (div_nonneg (by linarith) (by norm_num)) (by norm_num)
    · exact le_refl 0
    · exact le_refl 0
  have hr2 : 0 ≤ r2 := by
    rw [hr2def]
    split_ifs with h1 h2
    · have hc : (10:ℚ) < ((t.daily_transaction_count.getD 0 : ℤ) : ℚ) := by
        exact_mod_cast h2
      exact le_min (div_nonneg (by linarith) (by norm_num)) (by norm_num)
    · exact le_refl 0
    · exact le_refl 0
  by_cases hb : (qTruthy t.daily_amount_total && qTruthy u.average_transaction_amount) = true
  · rw [if_pos hb] at hv
    cases hfreq : u.transaction_frequency with
    | none => rw [hfreq] at hv; exact absurd hv (by simp)
    | some freq =>
      rw [hfreq] at hv
      simp only [Option.some.injEq] at hv
      subst hv
      refine ⟨le_min ?_ (by norm_num), min_le_right _ _⟩
      refine add_nonneg (add_nonneg hr1 hr2) ?_
      split_ifs <;> first
        | exact le_refl 0
        | exact le_min (by linarith) (by norm_num)
  · rw [if_neg hb] at hv
    simp only [Option.some.injEq] at hv
    subst hv
    exact ⟨le_min (by linarith) (by norm_num), min_le_right _ _⟩

/-- Every anomaly score of `_detect_anomalies` lies in `[0, 1]`. -/
theorem detectAnomalies_bounds (env : PyEnv) (features : List ℚ) :
    ∀ p ∈ detectAnomalies env features, 0 ≤ p.2 ∧ p.2 ≤ 1 := by
  intro p hp
  obtain ⟨name, -, rfl⟩ := List.mem_map.mp hp
  cases h : env.decisionFn name features with
  | none => exact ⟨le_refl 0, zero_le_one⟩
  | some w => exact ⟨le_min (abs_nonneg w) zero_le_one, min_le_right _ _⟩

/-! ## Result projections -/

/-- The fraud score of a non-raising `analyze_transaction` call (`0` when the
call raised and no score was returned). -/
def fraudScoreOf (e : Except String FraudDetectionResult) : ℚ :=
  match e with
  | Except.ok r => r.fraud_score
  | Except.error _ => 0

/-- The indicator list of a non-raising `analyze_transaction` call. -/
def indicatorsOf (e : Except String FraudDetectionResult) : List FraudIndicator :=
  match e with
  | Except.ok r => r.indicators
  | Except.error _ => []

/-- The primary indicator of a non-raising `analyze_transaction` call. -/
def primaryOf (e : Except String FraudDetectionResult) : Option String :=
  match e with
  | Except.ok r => r.primary_indicator
  | Except.error _ => none

/-! ## C4: feature independence of the ML scores -/

/-- C4: the per-model fraud probabilities of `_run_ml_models` do not depend on
the prepared feature vector: with the same random-generator state, any two
feature inputs (and any two scaler states) yield equal score dicts, namely the
first three mock `np.random.beta(2, 8)` draws — no feature value influences any
returned score. -/
theorem runMlModels_feature_independent (st st' : ServiceState)
    (features features' : List ℚ) (rng : ℕ → ℚ) :
    (runMlModels st features rng).1 = (runMlModels st' features' rng).1
    ∧ (runMlModels st features rng).1
        = [("random_forest", rng 0), ("xgboost", rng 1), ("lightgbm", rng 2)] :=
  ⟨rfl, rfl⟩

/-! ## C5: ordering of the explanation indicators -/

/-- C5: the indicator list returned by `analyze_transaction` is sorted in
non-increasing severity, and `primary_indicator` is the `indicator_type` of its
first element when the list is non-empty and `None` when it is empty. -/
theorem analyzeTransaction_indicators_sorted (env : PyEnv) (st : ServiceState)
    (t : TransactionData) (u : UserData) (d : DeviceInfo) (c : ContextData)
    (rng : ℕ → ℚ) :
    List.Pairwise (fun a b : FraudIndicator => b.severity ≤ a.severity)
      (indicatorsOf ((analyzeTransaction env st t u d c rng).1))
    ∧ primaryOf ((analyzeTransaction env st t u d c rng).1)
        = ((indicatorsOf ((analyzeTransaction env st t u d c rng).1)).head?).map
            (·.indicator_type) := by
  cases hvel : analyzeVelocityPatterns t u with
  | none => simp [analyzeTransaction, hvel, indicatorsOf, primaryOf]
  | some v =>
    simp only [analyzeTransaction, hvel, indicatorsOf, primaryOf]
    constructor
    · simp only [generateFraudIndicators]
      exact List.sorted_insertionSort sevGE _
    · trivial

/-! ## C7: no model state persists across requests -/

/-- The service state after a sequence of prior `analyze_transaction` calls
(each element carries the call's inputs and the generator state it saw). -/
def applyPriorCalls (env : PyEnv) (st : ServiceState)
    (priors : List (TransactionData × UserData × DeviceInfo × ContextData × (ℕ → ℚ))) :
    ServiceState :=
  priors.foldl
    (fun s p => (analyzeTransaction env s p.1 p.2.1 p.2.2.1 p.2.2.2.1 p.2.2.2.2).2) st

/-- The `analyze_transaction` never writes the rule thresholds (it only re-fits the
scalers). -/
theorem analyzeTransaction_preserves_thresholds (env : PyEnv) (st : ServiceState)
    (t : TransactionData) (u : UserData) (d : DeviceInfo) (c : ContextData)
    (rng : ℕ → ℚ) :
    ((analyzeTransaction env st t u d c rng).2).thresholds = st.thresholds := by
  cases hvel : analyzeVelocityPatterns t u <;>
    simp [analyzeTransaction, hvel, runMlModels, setScaler]

/-- The result of `analyze_transaction` reads the service state only through the
thresholds: the scaler states (the only state the pipeline writes) are re-fitted
from scratch and their output is discarded, so they cannot influence the result. -/
theorem analyzeTransaction_fst_state_blind (env : PyEnv) (th : FraudThresholds)
    (sc sc' : List (String × Option ScalerFit)) (t : TransactionData)
    (u : UserData) (d : DeviceInfo) (c : ContextData) (rng : ℕ → ℚ) :
    (analyzeTransaction env ⟨th, sc⟩ t u d c rng).1
      = (analyzeTransaction env ⟨th, sc'⟩ t u d c rng).1 := by
  cases hvel : analyzeVelocityPatterns t u <;>
    simp [analyzeTransaction, hvel, runMlModels_fst]

/-- C7: no model state persists across requests — for a fixed generator state,
`analyze_transaction` on a freshly initialized `FraudDetectionService` returns
the same result whether it is the first call or is preceded by any sequence of
other `analyze_transaction` calls (the scaler re-fits those calls leave behind
never alter a later result). -/
theorem analyzeTransaction_no_state_leak (env : PyEnv)
    (priors : List (TransactionData × UserData × DeviceInfo × ContextData × (ℕ → ℚ)))
    (t : TransactionData) (u : UserData) (d : DeviceInfo) (c : ContextData)
    (rng : ℕ → ℚ) :
    (analyzeTransaction env (applyPriorCalls env initState priors) t u d c rng).1
      = (analyzeTransaction env initState t u d c rng).1 := by
  have hcons : ∀ (p) (rest) (st : ServiceState), applyPriorCalls env st (p :: rest)
      = applyPriorCalls env
          ((analyzeTransaction env st p.1 p.2.1 p.2.2.1 p.2.2.2.1 p.2.2.2.2).2) rest :=
    fun _ _ _ => rfl
  have gen : ∀ (ps : List (TransactionData × UserData × DeviceInfo × ContextData × (ℕ → ℚ)))
      (st : ServiceState), (applyPriorCalls env st ps).thresholds = st.thresholds := by
    intro ps
    induction ps with
    | nil => intro st; rfl
    | cons p rest ih =>
      intro st
      rw [hcons, ih, analyzeTransaction_preserves_thresholds]
  have hth : (applyPriorCalls env initState priors).thresholds = defaultThresholds := by
    rw [gen priors initState]; rfl
  have heta : applyPriorCalls env initState priors
      = (⟨defaultThresholds, (applyPriorCalls env initState priors).scalers⟩ :
          ServiceState) := by
    rw [← hth]
  rw [heta]
  exact analyzeTransaction_fst_state_blind env defaultThresholds _ _ t u d c rng

/-! ## C1: the ensemble fraud score -/

/-- C1: for every transaction input on which `analyze_transaction` returns (and
with the mock beta draws in `[0, 1]`, their actual support), the fraud score is a
single value bounded in `[0, 1]`, and it equals the fixed-weight linear
combination `min(1, 0.3·mean(ml_scores) + 0.2·mean(anomaly_scores)
+ 0.2·mean(rule severities) + 0.1·device_risk + 0.1·behavioral_risk
+ 0.05·velocity_risk + 0.05·geographic_risk)` of the pipeline's component
scores, an empty score group contributing `0`; the weights are the same literal
constants for every input. -/
theorem analyzeTransaction_score_bounded (env : PyEnv) (st : ServiceState)
    (t : TransactionData) (u : UserData) (d : DeviceInfo) (c : ContextData)
    (rng : ℕ → ℚ)
    (hst : st.thresholds = defaultThresholds)
    (hrng : ∀ i, 0 ≤ rng i ∧ rng i ≤ 1)
    (hvel : (analyzeVelocityPatterns t u).isSome = true) :
    ((analyzeTransaction env st t u d c rng).1).isOk = true
    ∧ 0 ≤ fraudScoreOf ((analyzeTransaction env st t u d c rng).1)
    ∧ fraudScoreOf ((analyzeTransaction env st t u d c rng).1) ≤ 1
    ∧ fraudScoreOf ((analyzeTransaction env st t u d c rng).1)
        = min 1 (3/10 * meanOrZero
              (((runMlModels st (prepareTransactionFeatures env t u d c) rng).1).map (·.2))
            + 1/5 * meanOrZero
              ((detectAnomalies env (prepareTransactionFeatures env t u d c)).map (·.2))
            + 1/5 * meanOrZero ((applyFraudRules st.thresholds t u d c).map (·.severity))
            + 1/10 * analyzeDeviceRisk env d u
            + 1/10 * analyzeBehavioralPatterns t u c
            + 1/20 * (analyzeVelocityPatterns t u).getD 0
            + 1/20 * analyzeGeographicRisk t u d) := by
  obtain ⟨v, hv⟩ := Option.isSome_iff_exists.mp hvel
  have hbounds := calculateEnsembleScore_bounds
    ((runMlModels st (prepareTransactionFeatures env t u d c) rng).1)
    (detectAnomalies env (prepareTransactionFeatures env t u d c))
    (applyFraudRules st.thresholds t u d c)
    (analyzeDeviceRisk env d u) (analyzeBehavioralPatterns t u c) v
    (analyzeGeographicRisk t u d)
    ?hml ?han ?hrules ?hdr ?hbr ?hvr ?hgr
  case hml =>
    intro p hp
    rw [runMlModels_fst] at hp
    simp only [List.mem_cons, List.not_mem_nil, or_false] at hp
    rcases hp with rfl | rfl | rfl
    · exact (hrng 0).1
    · exact (hrng 1).1
    · exact (hrng 2).1
  case han => exact fun p hp => (detectAnomalies_bounds env _ p hp).1
  case hrules =>
    intro i hi
    rw [hst] at hi
    exact (applyFraudRules_severity_bounds t u d c i hi).1
  case hdr => exact (analyzeDeviceRisk_bounds env d u).1
  case hbr => exact (analyzeBehavioralPatterns_bounds t u c).1
  case hvr => exact (analyzeVelocityPatterns_bounds t u v hv).1
  case hgr => exact (analyzeGeographicRisk_bounds t u d).1
  simp only [analyzeTransaction, hv, fraudScoreOf, Option.getD_some]
  exact ⟨rfl, hbounds.1, hbounds.2, calculateEnsembleScore_eq _ _ _ _ _ _ _⟩

/-! ## Concrete sample inputs (for witnesses) -/

/-- A concrete Python environment (all abstract runtime functions constant). -/
def envW : PyEnv :=
  { pyHash := fun _ => 0
    md5Hex := fun _ => ""
    log1p := fun _ => 0
    sqrt := fun _ => 0
    decisionFn := fun _ _ => none }

/-- A concrete payment method. -/
def pmW : PaymentMethod :=
  { payment_type := "card", is_tokenized := false, token_confidence := none }

/-- A concrete transaction. -/
def tW : TransactionData :=
  { transaction_id := "t1"
    amount := 500
    hour := 12
    weekday := 2
    epoch_seconds := 1000000
    is_recurring := false
    is_international := false
    hourly_transaction_count := none
    daily_transaction_count := none
    daily_amount_total := none
    billing_address := none
    shipping_address := none
    payment_method := pmW }

/-- A concrete user. -/
def uW : UserData :=
  { user_id := "u1"
    account_age_days := 100
    email_verified := true
    phone_verified := true
    transaction_frequency := none
    average_transaction_amount := none
    previous_fraud_reports := 0
    chargebacks_count := 0
    failed_login_attempts := 0
    last_login_epoch := none
    profile_completeness := none }

/-- A concrete device. -/
def dW : DeviceInfo :=
  { device_type := "mobile"
    is_mobile := true
    is_proxy := none
    device_fingerprint := some "fp" }

/-- A concrete request context. -/
def cW : ContextData :=
  { session_id := "s1"
    session_duration := none
    pages_visited := none
    time_to_transaction := none
    holiday_indicator := false
    promotional_period := false }

/-- A concrete random-draw stream (all beta draws equal to `1/2`). -/
def rngW : ℕ → ℚ := fun _ => 1/2

/-- C1 witness: on a concrete transaction the call returns a score lying in
`[0, 1]`. -/
theorem analyzeTransaction_score_bounded_witness :
    ((analyzeTransaction envW initState tW uW dW cW rngW).1).isOk = true
    ∧ 0 ≤ fraudScoreOf ((analyzeTransaction envW initState tW uW dW cW rngW).1)
    ∧ fraudScoreOf ((analyzeTransaction envW initState tW uW dW cW rngW).1) ≤ 1 := by
  have h := analyzeTransaction_score_bounded envW initState tW uW dW cW rngW rfl
    (fun i => ⟨by norm_num [rngW], by norm_num [rngW]⟩) rfl
  exact ⟨h.1, h.2.1, h.2.2.1⟩

/-! ## C6: bulk endpoints -/

/-- The dict entry a single item contributes: its key and stored value when its
call succeeds, nothing when it raises. -/
def bulkEntry {α β : Type} (key : α → String) (f : α → Except String β) (it : α) :
    Option (String × β) :=
  match f it with
  | Except.ok b => some (key it, b)
  | Except.error _ => none

theorem bulkEntry_fst {α β : Type} {key : α → String} {f : α → Except String β}
    {x : α} {p : String × β} (h : bulkEntry key f x = some p) : p.1 = key x := by
  unfold bulkEntry at h
  cases hfx : f x with
  | error e => rw [hfx] at h; cases h
  | ok b => rw [hfx] at h; cases h; rfl

theorem chunksOf_cons {α : Type} (n : ℕ) (x : α) (xs : List α) :
    chunksOf (n+1) (x :: xs) = (x :: xs.take n) :: chunksOf (n+1) (xs.drop n) := by
  rw [chunksOf]

/-- Batched left folding over the chunks equals a single left fold. -/
theorem foldl_chunksOf {α β : Type} (g : β → α → β) (n : ℕ) :
    ∀ (l : List α) (a : β),
      (chunksOf (n+1) l).foldl (fun acc batch => batch.foldl g acc) a
        = l.foldl g a := by
  have H : ∀ (N : ℕ) (l : List α), l.length ≤ N → ∀ a,
      (chunksOf (n+1) l).foldl (fun acc batch => batch.foldl g acc) a
        = l.foldl g a := by
    intro N
    induction N with
    | zero =>
      intro l hl a
      have hnil : l = [] := List.length_eq_zero.mp (Nat.le_zero.mp hl)
      subst hnil
      simp [chunksOf]
    | succ N ih =>
      intro l hl a
      cases l with
      | nil => simp [chunksOf]
      | cons x xs =>
        rw [chunksOf_cons]
        simp only [List.foldl_cons]
        rw [ih (xs.drop n) ?hlen]
        · rw [← List.foldl_append, List.take_append_drop]
        case hlen =>
          simp only [List.length_cons] at hl
          simp only [List.length_drop]
          omega
  exact fun l a => H l.length l le_rfl a

theorem dictInsert_of_not_mem {β : Type} (m : List (String × β)) (k : String) (v : β)
    (h : ∀ p ∈ m, p.1 ≠ k) : dictInsert m k v = m ++ [(k, v)] := by
  have hany : (m.any fun p => p.1 == k) = false := by
    simp only [List.any_eq_false, beq_iff_eq]
    exact h
  unfold dictInsert
  rw [if_neg (by simp [hany])]

/-- The accumulation of one full item list: successes appended in order under
their keys, failures skipped (keys assumed distinct and fresh w.r.t. the
accumulator). -/
theorem foldl_bulkStep_append {α β : Type} (key : α → String)
    (f : α → Except String β) :
    ∀ (items : List α) (acc : List (String × β)),
      (items.map key).Nodup →
      (∀ it ∈ items, ∀ p ∈ acc, p.1 ≠ key it) →
      items.foldl (bulkStep key f) acc
        = acc ++ items.filterMap (bulkEntry key f) := by
  intro items
  induction items with
  | nil => intro acc _ _; simp
  | cons it rest ih =>
    intro acc hnd hdisj
    simp only [List.map_cons, List.nodup_cons] at hnd
    simp only [List.foldl_cons, List.filterMap_cons]
    cases hf : f it with
    | error e =>
      rw [show bulkEntry key f it = none from by simp [bulkEntry, hf]]
      have hstep : bulkStep key f acc it = acc := by simp [bulkStep, hf]
      rw [hstep]
      exact ih acc hnd.2 (fun it' h' p hp => hdisj it' (List.mem_cons_of_mem _ h') p hp)
    | ok b =>
      rw [show bulkEntry key f it = some (key it, b) from by simp [bulkEntry, hf]]
      have hstep : bulkStep key f acc it = acc ++ [(key it, b)] := by
        simp only [bulkStep, hf]
        exact dictInsert_of_not_mem acc (key it) b
          (fun p hp => hdisj it (List.mem_cons_self it rest) p hp)
      rw [hstep, ih (acc ++ [(key it, b)]) hnd.2 ?disj]
      · rw [List.append_assoc, List.singleton_append]
      case disj =>
        intro it' h' p hp
        rcases List.mem_append.mp hp with hp | hp
        · exact hdisj it' (List.mem_cons_of_mem _ h') p hp
        · simp only [List.mem_singleton] at hp
          subst hp
          intro hEq
          exact hnd.1 ((show key it = key it' from hEq) ▸ List.mem_map_of_mem key h')

/-- Under distinct keys, the whole batched accumulation is the ordered
association list of the successes. -/
theorem bulkProcess_eq_filterMap {α β : Type} (n : ℕ) (key : α → String)
    (f : α → Except String β) (items : List α)
    (hnd : (items.map key).Nodup) :
    bulkProcess (n+1) key f items = items.filterMap (bulkEntry key f) := by
  unfold bulkProcess
  rw [foldl_chunksOf (bulkStep key f) n items []]
  simpa using foldl_bulkStep_append key f items [] hnd (by simp)

theorem dictLookup_cons_ne {β : Type} (p : String × β) (m : List (String × β))
    (k : String) (h : p.1 ≠ k) : dictLookup (p :: m) k = dictLookup m k := by
  unfold dictLookup
  rw [List.find?_cons_of_neg _ (by simp [h])]

theorem dictLookup_cons_self {β : Type} (k : String) (v : β)
    (m : List (String × β)) : dictLookup ((k, v) :: m) k = some v := by
  unfold dictLookup
  rw [List.find?_cons_of_pos _ (by simp)]
  rfl

/-- A key absent from the item list is absent from the result dict. -/
theorem dictLookup_filterMap_not_mem {α β : Type} (key : α → String)
    (f : α → Except String β) (items : List α) (k : String)
    (hk : k ∉ items.map key) :
    dictLookup (items.filterMap (bulkEntry key f)) k = none := by
  induction items with
  | nil => rfl
  | cons x rest ih =>
    simp only [List.map_cons, List.mem_cons, not_or] at hk
    rw [List.filterMap_cons]
    cases hx : bulkEntry key f x with
    | none => exact ih hk.2
    | some p =>
      rw [dictLookup_cons_ne p _ _ (by rw [bulkEntry_fst hx]; exact fun h => hk.1 h.symm)]
      exact ih hk.2

/-- A succeeding item's entry is its own value. -/
theorem dictLookup_filterMap_ok {α β : Type} (key : α → String)
    (f : α → Except String β) (items : List α)
    (hnd : (items.map key).Nodup) (it : α) (hit : it ∈ items) (b : β)
    (hok : f it = Except.ok b) :
    dictLookup (items.filterMap (bulkEntry key f)) (key it) = some b := by
  induction items with
  | nil => cases hit
  | cons x rest ih =>
    simp only [List.map_cons, List.nodup_cons] at hnd
    rcases List.mem_cons.mp hit with rfl | hit'
    · rw [List.filterMap_cons,
        show bulkEntry key f it = some (key it, b) from by simp [bulkEntry, hok]]
      exact dictLookup_cons_self (key it) b _
    · have hne : key x ≠ key it := by
        intro hEq
        exact hnd.1 (hEq ▸ List.mem_map_of_mem key hit')
      rw [List.filterMap_cons]
      cases hx : bulkEntry key f x with
      | none => exact ih hnd.2 hit'
      | some p =>
        rw [dictLookup_cons_ne p _ _ (by rw [bulkEntry_fst hx]; exact hne)]
        exact ih hnd.2 hit'

/-- A raising item produces no entry. -/
theorem dictLookup_filterMap_err {α β : Type} (key : α → String)
    (f : α → Except String β) (items : List α)
    (hnd : (items.map key).Nodup) (it : α) (hit : it ∈ items) (e : String)
    (herr : f it = Except.error e) :
    dictLookup (items.filterMap (bulkEntry key f)) (key it) = none := by
  induction items with
  | nil => cases hit
  | cons x rest ih =>
    simp only [List.map_cons, List.nodup_cons] at hnd
    rcases List.mem_cons.mp hit with rfl | hit'
    · rw [List.filterMap_cons,
        show bulkEntry key f it = none from by simp [bulkEntry, herr]]
      exact dictLookup_filterMap_not_mem key f rest (key it) hnd.1
    · have hne : key x ≠ key it := by
        intro hEq
        exact hnd.1 (hEq ▸ List.mem_map_of_mem key hit')
      rw [List.filterMap_cons]
      cases hx : bulkEntry key f x with
      | none => exact ih hnd.2 hit'
      | some p =>
        rw [dictLookup_cons_ne p _ _ (by rw [bulkEntry_fst hx]; exact hne)]
        exact ih hnd.2 hit'

/-- The result dict's keys, in order: the keys of the succeeding items. -/
theorem filterMap_bulkEntry_keys {α β : Type} (key : α → String)
    (f : α → Except String β) (items : List α) :
    (items.filterMap (bulkEntry key f)).map (·.1)
      = (items.filter (fun it => (f it).isOk)).map key := by
  induction items with
  | nil => rfl
  | cons x rest ih =>
    rw [List.filterMap_cons, List.filter_cons]
    cases hx : f x with
    | ok b =>
      rw [show bulkEntry key f x = some (key x, b) from by simp [bulkEntry, hx]]
      simp [hx, ih, Except.isOk, Except.toBool]
    | error e =>
      rw [show bulkEntry key f x = none from by simp [bulkEntry, hx]]
      simp [hx, ih, Except.isOk, Except.toBool]

theorem exceptMap_isOk {ε α β : Type} (g : α → β) (e : Except ε α) :
    (Except.map g e).isOk = e.isOk := by
  cases e <;> rfl

/-- C6: for every list of requests with distinct transaction ids,
`bulk_analyze_transactions` returns a dict whose keys are exactly the
`transaction_id`s of the requests whose own `analyze_transaction` call did not
raise (in input order), each mapped to the response built from that request's own
analysis result; a request whose analysis raises is omitted and affects no other
request's entry (each entry is determined by its own request alone).  The same
holds for `bulk_optimize_prices`, keyed by `product_id`. -/
theorem bulk_endpoints_spec
    (analyze : AnalysisRequest → Except String FraudDetectionResult)
    (optimize : ProductInfo → Except String PriceOptimizationResponse)
    (transactions : List AnalysisRequest) (products : List ProductInfo)
    (ht : (transactions.map (fun r => r.transaction.transaction_id)).Nodup)
    (hp : (products.map (fun p => p.product_id)).Nodup) :
    ((bulkAnalyzeTransactions analyze transactions).map (·.1)
        = (transactions.filter (fun r => (analyze r).isOk)).map
            (fun r => r.transaction.transaction_id))
    ∧ (∀ r ∈ transactions, ∀ res, analyze r = Except.ok res →
        dictLookup (bulkAnalyzeTransactions analyze transactions)
            r.transaction.transaction_id
          = some (mkTxResponse r.transaction.transaction_id res))
    ∧ (∀ r ∈ transactions, ∀ e, analyze r = Except.error e →
        dictLookup (bulkAnalyzeTransactions analyze transactions)
            r.transaction.transaction_id = none)
    ∧ ((bulkOptimizePrices optimize products).map (·.1)
        = (products.filter (fun p => (optimize p).isOk)).map (fun p => p.product_id))
    ∧ (∀ p ∈ products, ∀ resp, optimize p = Except.ok resp →
        dictLookup (bulkOptimizePrices optimize products) p.product_id = some resp)
    ∧ (∀ p ∈ products, ∀ e, optimize p = Except.error e →
        dictLookup (bulkOptimizePrices optimize products) p.product_id = none) := by
  have hchar : bulkAnalyzeTransactions analyze transactions
      = transactions.filterMap (bulkEntry (fun r => r.transaction.transaction_id)
          (fun r => (analyze r).map
            (fun res => mkTxResponse r.transaction.transaction_id res))) :=
    bulkProcess_eq_filterMap 19 _ _ transactions ht
  have hchar' : bulkOptimizePrices optimize products
      = products.filterMap (bulkEntry (fun p => p.product_id) optimize) :=
    bulkProcess_eq_filterMap 9 _ _ products hp
  refine ⟨?_, ?_, ?_, ?_, ?_, ?_⟩
  · rw [hchar, filterMap_bulkEntry_keys]
    congr 1
    apply List.filter_congr
    intro r _
    rw [exceptMap_isOk]
  · intro r hr res hok
    rw [hchar]
    exact dictLookup_filterMap_ok _ _ transactions ht r hr _ (by rw [hok]; rfl)
  · intro r hr e herr
    rw [hchar]
    exact dictLookup_filterMap_err _ _ transactions ht r hr e (by rw [herr]; rfl)
  · rw [hchar', filterMap_bulkEntry_keys]
  · intro p hpm resp hok
    rw [hchar']
    exact dictLookup_filterMap_ok _ _ products hp p hpm _ hok
  · intro p hpm e herr
    rw [hchar']
    exact dictLookup_filterMap_err _ _ products hp p hpm e herr

/-- A concrete analysis result. -/
def resW : FraudDetectionResult :=
  { fraud_score := 1/2
    decision := FraudDecision.review
    confidence_score := 9/10
    indicators := []
    recommendations := []
    primary_indicator := none }

/-- A concrete analysis request. -/
def reqW : AnalysisRequest :=
  { transaction := tW, user := uW, device := dW, context := cW }

/-- A concrete product. -/
def prodW : ProductInfo :=
  { product_id := "pr1", current_price := 10, cost := 5, inventory_level := 3,
    constraints := none }

/-- C6 witness: a succeeding request's entry holds its own response; a raising
optimization leaves no entry. -/
theorem bulk_endpoints_spec_witness :
    dictLookup (bulkAnalyzeTransactions (fun _ => Except.ok resW) [reqW])
        tW.transaction_id
      = some (mkTxResponse tW.transaction_id resW)
    ∧ dictLookup (bulkOptimizePrices (fun _ => Except.error "boom") [prodW])
        prodW.product_id = none := by
  have h := bulk_endpoints_spec (fun _ => Except.ok resW)
    (fun _ => Except.error "boom") [reqW] [prodW] (by simp) (by simp)
  exact ⟨h.2.1 reqW (by simp) resW rfl, h.2.2.2.2.2 prodW (by simp) "boom" rfl⟩

end SmartCommerce
